import Mathlib

/-
Verification development for the go-kafkaproxy producer wrapper.

The embedding models the two source packages:
  * pkg/proxyerror/error.go  — the flat, numeric-coded error taxonomy;
  * pkg/producer/producer.go — the Producer wrapper around a Kafka
    AsyncProducer (the Adapter), its constructor, message factory,
    Input/Close/IsClosed operations, the error-draining goroutine and
    the signal-triggered shutdown goroutine.

Go-side conventions used by the model:
  * a Go `error` value is modelled as `Option String` (none = nil error);
  * nilable references (broker slice, error handler, config override,
    returned channels) are modelled as `Option`;
  * `log.Fatal`/`log.Fatalln` terminate the process, so no statement
    after them in the same control path is ever executed; the model
    therefore truncates traces at a fatal log event;
  * goroutine bodies are modelled as the event traces they produce;
  * the `time.Time` field of ProxyError records wall-clock creation
    time and plays no role in any claim; it is not modelled.
-/

namespace GoKafkaProxy

/-- ProxyError mirrors pkg/proxyerror.ProxyError: a numeric code plus a
human-readable message (the wall-clock timestamp field is not modelled). -/
structure ProxyError where
  code : Nat
  message : String
  deriving DecidableEq, Repr

/-- createError mirrors proxyerror.createError: joins the message parts
with a colon separator and tags the given code. -/
def createError (code : Nat) (messages : List String) : ProxyError :=
  { code := code, message := String.intercalate ": " messages }

/-- BrokersNotSetError: code 1. -/
def BrokersNotSetError (messages : List String) : ProxyError :=
  createError 1 messages

/-- ConnectionError: code 2. -/
def ConnectionError (messages : List String) : ProxyError :=
  createError 2 messages

/-- ResourceCloseError: code 3. -/
def ResourceCloseError (messages : List String) : ProxyError :=
  createError 3 messages

/-- ResourceClosedError: code 4 (the spec taxonomy calls it
ResourceClosedAccess). -/
def ResourceClosedError (messages : List String) : ProxyError :=
  createError 4 messages

/-- ResourceWriteError: code 5. -/
def ResourceWriteError (messages : List String) : ProxyError :=
  createError 5 messages

/-- sarama.RequiredAcks values used by the wrapper. -/
inductive RequiredAcks where
  | NoResponse
  | WaitForLocal
  | WaitForAll
  deriving DecidableEq, Repr

/-- sarama.CompressionCodec values used by the wrapper. -/
inductive CompressionCodec where
  | CompressionNone
  | CompressionGZIP
  | CompressionSnappy
  deriving DecidableEq, Repr

/-- The fields of sarama.Config that producer.New touches:
Producer.Return.Errors, Producer.RequiredAcks, Producer.Compression.
All other fields are opaque pass-through and are not modelled. -/
structure SaramaConfig where
  returnErrors : Bool
  requiredAcks : RequiredAcks
  compression : CompressionCodec
  deriving DecidableEq, Repr

/-- The modelled fields of a fresh sarama.NewConfig() (library defaults;
producer.New overwrites all three of them on the default path). -/
def newSaramaConfig : SaramaConfig :=
  { returnErrors := true
    requiredAcks := RequiredAcks.WaitForLocal
    compression := CompressionCodec.CompressionNone }

/-- sarama.ProducerMessage as built by the factory: topic, optional key
(nil encoder when no key is set) and string-encoded value. -/
structure ProducerMessage where
  topic : String
  key : Option String
  value : String
  deriving DecidableEq, Repr

/-- sarama.ProducerError: a delivery error carrying the failed message
and the underlying error. -/
structure ProducerError where
  msg : ProducerMessage
  err : String
  deriving DecidableEq, Repr

/-- The Adapter (Kafka AsyncProducer) as the wrapper observes it: an
opaque handle to its input channel, the result its blocking Close()
returns (none = success), and the delivery errors its Errors() channel
yields before the Adapter closes it. -/
structure Adapter where
  inputChanId : Nat
  closeResult : Option String
  deliveryErrors : List ProducerError
  deriving DecidableEq, Repr

/-- producer.Config: optional error handler, nilable broker slice,
optional sarama-config override. -/
structure Config where
  errHandler : Option (ProducerError → Unit)
  kafkaBrokers : Option (List String)
  saramaConfig : Option SaramaConfig

/-- producer.Producer: the Adapter reference plus the closed and
logging flags. -/
structure Producer where
  producer : Adapter
  isClosed : Bool
  isLoggingEnabled : Bool
  deriving DecidableEq, Repr

/-- The sarama config New hands to sarama.NewAsyncProducer (lines
44-52): the override when one is supplied, otherwise NewConfig() with
Return.Errors = true, RequiredAcks = WaitForAll, Compression = none. -/
def configFor (initConfig : Config) : SaramaConfig :=
  match initConfig.saramaConfig with
  | some c => c
  | none =>
    { newSaramaConfig with
        returnErrors := true
        requiredAcks := RequiredAcks.WaitForAll
        compression := CompressionCodec.CompressionNone }

/-- len of a nilable Go slice (len(nil) = 0). -/
def kafkaBrokersLen (brokers : Option (List String)) : Nat :=
  match brokers with
  | none => 0
  | some l => l.length

/-- producer.New (lines 39-67). `connect` stands for the external
sarama.NewAsyncProducer call; its failure message is wrapped as a
ConnectionError. The spawning of the two background goroutines
(handleKeyInterrupt, handleErrors) is modelled separately below. -/
def New (connect : List String → SaramaConfig → Except String Adapter)
    (initConfig : Config) : Except ProxyError Producer :=
  if initConfig.kafkaBrokers = none ∨ kafkaBrokersLen initConfig.kafkaBrokers = 0 then
    Except.error (BrokersNotSetError ["No Kafka Brokers set."])
  else
    match initConfig.kafkaBrokers with
    | none => Except.error (BrokersNotSetError ["No Kafka Brokers set."])
    | some brokers =>
      match connect brokers (configFor initConfig) with
      | Except.error e => Except.error (ConnectionError [e])
      | Except.ok producer =>
        Except.ok { producer := producer, isClosed := false, isLoggingEnabled := false }

/-- Producer.EnableLogging (line 70-72). -/
def Producer.EnableLogging (p : Producer) : Producer :=
  { p with isLoggingEnabled := true }

/-- Producer.CreateKeyMessage (lines 75-86): builds the message with
topic and value, then sets the key only when it is non-empty. -/
def Producer.CreateKeyMessage (p : Producer)
    (topic : String) (key : String) (value : String) : ProducerMessage :=
  let msg : ProducerMessage := { topic := topic, key := none, value := value }
  if key ≠ "" then { msg with key := some key } else msg

/-- Producer.CreateMessage (lines 89-91): keyless message via the
empty-string sentinel. -/
def Producer.CreateMessage (p : Producer) (topic : String) (value : String) :
    ProducerMessage :=
  p.CreateKeyMessage topic "" value

/-- Producer.IsClosed (lines 94-96). -/
def Producer.IsClosed (p : Producer) : Bool :=
  p.isClosed

/-- Producer.Get (lines 99-101). -/
def Producer.Get (p : Producer) : Adapter :=
  p.producer

/-- Producer.Input (lines 104-111): Go returns the pair
(chan, error); the channel is the Adapter's raw input sink. -/
def Producer.Input (p : Producer) : Option Nat × Option ProxyError :=
  if !p.IsClosed then
    (some p.producer.inputChanId, none)
  else
    (none, some (ResourceClosedError ["Producer already closed."]))

/-- The observable events of the close goroutine (lines 154-167). A
fatalLog event is log.Fatal: the process terminates there and the trace
ends. -/
inductive CloseEvent where
  | adapterClose (result : Option String)
  | fatalLog (e : String)
  | sendError (e : String)
  | logClosed
  | setClosedTrue
  deriving DecidableEq, Repr

/-- The tail of the close goroutine after the error branch (lines
163-166): optional success log, then the closed-flag write. -/
def closeGoroutineTail (logging : Bool) : List CloseEvent :=
  (if logging then [CloseEvent.logClosed] else []) ++ [CloseEvent.setClosedTrue]

/-- The event trace of the close goroutine (lines 154-167): call the
Adapter's blocking Close; on a non-nil error either log.Fatal (logging
mode — the process dies, nothing further runs) or send the error on the
result channel; finally log and set the closed flag. -/
def closeGoroutine (logging : Bool) (adapterResult : Option String) :
    List CloseEvent :=
  CloseEvent.adapterClose adapterResult ::
    match adapterResult with
    | some err =>
      if logging then [CloseEvent.fatalLog err]
      else CloseEvent.sendError err :: closeGoroutineTail logging
    | none => closeGoroutineTail logging

/-- The result channel Close returns, together with the trace of the
goroutine it spawns. -/
structure CloseChan where
  capacity : Nat
  events : List CloseEvent
  deriving DecidableEq, Repr

/-- Producer.Close (lines 145-170): nil (no channel, no goroutine) when
already closed; otherwise a capacity-1 error channel plus the close
goroutine. -/
def Producer.Close (p : Producer) : Option CloseChan :=
  if p.IsClosed then none
  else some { capacity := 1
              events := closeGoroutine p.isLoggingEnabled p.producer.closeResult }

/-- The values sent on the close result channel, in order. -/
def closeSends (t : List CloseEvent) : List String :=
  t.filterMap fun ev =>
    match ev with
    | CloseEvent.sendError e => some e
    | _ => none

/-- How many times the trace invokes the Adapter's close operation. -/
def adapterCloseCountOf (t : List CloseEvent) : Nat :=
  (t.filter fun ev =>
    match ev with
    | CloseEvent.adapterClose _ => true
    | _ => false).length

/-- Whether the trace writes the closed flag. -/
def tracePutsClosedTrue (t : List CloseEvent) : Bool :=
  t.any fun ev =>
    match ev with
    | CloseEvent.setClosedTrue => true
    | _ => false

/-- Whether the trace terminates the process via log.Fatal. -/
def traceHasFatal (t : List CloseEvent) : Bool :=
  t.any fun ev =>
    match ev with
    | CloseEvent.fatalLog _ => true
    | _ => false

/-- What happens to one delivery error inside the handleErrors loop
(lines 134-139). log.Fatalln terminates the process, so the handler
call after it is never reached; calling a nil handler panics. -/
inductive RouteOutcome where
  | fatalTerminated (e : ProducerError)
  | handlerInvoked (e : ProducerError)
  | nilHandlerPanic (e : ProducerError)
  deriving DecidableEq, Repr

/-- One iteration of the handleErrors loop body (lines 135-138): the
logging branch calls log.Fatalln (process exit — the unconditional
errHandler(err) on line 138 is unreachable); otherwise errHandler(err)
is invoked, which panics when the handler is nil. -/
def routeError (logging : Bool) (errHandler : Option (ProducerError → Unit))
    (e : ProducerError) : RouteOutcome :=
  if logging then RouteOutcome.fatalTerminated e
  else
    match errHandler with
    | some _ => RouteOutcome.handlerInvoked e
    | none => RouteOutcome.nilHandlerPanic e

/-- The drain loop of handleErrors (line 134) over the delivery errors
the Adapter yields: a fatal log or a panic ends the process, so the
loop stops there; handled errors let the loop continue. -/
def handleErrorsLoop (logging : Bool) (errHandler : Option (ProducerError → Unit)) :
    List ProducerError → List RouteOutcome
  | [] => []
  | e :: rest =>
    match routeError logging errHandler e with
    | RouteOutcome.handlerInvoked e2 =>
      RouteOutcome.handlerInvoked e2 :: handleErrorsLoop logging errHandler rest
    | o => [o]

/-- Producer.handleErrors (lines 131-141): drains the Adapter's error
channel with the producer's logging flag (modelled as fixed for the
drain — the spec tolerates races on the flag). -/
def Producer.handleErrors (p : Producer)
    (errHandler : Option (ProducerError → Unit)) : List RouteOutcome :=
  handleErrorsLoop p.isLoggingEnabled errHandler p.producer.deliveryErrors

/-- The fate of the signal-handler goroutine after `<-sigChan` yields:
it either blocks forever on the close-result receive, or receives an
error and dies in log.Fatalln after logging it, or would panic calling
Error() on a nil error. -/
inductive SigOutcome where
  | blockedForever
  | fatalLogged (e : String)
  | nilErrorPanic
  deriving DecidableEq, Repr

/-- Boolean test used to state that the signal handler never panics. -/
def sigOutcomeIsPanic : SigOutcome → Bool
  | SigOutcome.nilErrorPanic => true
  | _ => false

/-- The value `closeError := <-p.Close()` receives: a nil channel
(already-closed path) blocks forever; an open channel with no send ever
made and never closed blocks forever; otherwise it yields the (single,
non-nil) sent error. -/
def receiveOnCloseChan (c : Option CloseChan) : Option (Option String) :=
  match c with
  | none => none
  | some ch =>
    match closeSends ch.events with
    | [] => none
    | e :: _ => some (some e)

/-- What the signal goroutine observably does after a signal arrives. -/
structure SigHandlerRun where
  receiptLogged : Bool
  outcome : SigOutcome
  deriving DecidableEq, Repr

/-- Producer.handleKeyInterrupt, body after `<-sigChan` (lines 122-128):
log the receipt unconditionally (log.Println, independent of the
logging flag), then `closeError := <-p.Close()`, then
log.Fatalln(closeError.Error()). A receive that never completes means
the goroutine blocks forever; a received nil error would panic inside
Error(); a received non-nil error is logged fatally. -/
def Producer.handleKeyInterruptOnSignal (p : Producer) : SigHandlerRun :=
  { receiptLogged := true
    outcome :=
      match receiveOnCloseChan p.Close with
      | none => SigOutcome.blockedForever
      | some none => SigOutcome.nilErrorPanic
      | some (some e) => SigOutcome.fatalLogged e }

/-- Program counter of one Close() invocation, at the granularity of
the source statements (lines 149, 156, 157-161, 166). -/
inductive ClosePC where
  | checkFlag
  | adapterClose
  | reportError
  | writeFlag
  | done
  deriving DecidableEq, Repr

/-- Shared state touched by concurrent Close() invocations: the
closed flag, how many times the Adapter's close ran, and how many
non-nil errors were reported in total. -/
structure RaceState where
  isClosed : Bool
  adapterCloseCount : Nat
  reportedErrors : Nat
  deriving DecidableEq, Repr

/-- One atomic step of one Close() invocation (logging disabled;
`adapterFails` tells whether producer.Close() returns an error):
check-then-act on the flag (line 149), the Adapter close call
(line 156), the conditional error send (lines 157-162), and the flag
write (line 166). -/
def closeStep (adapterFails : Bool) : ClosePC → RaceState → ClosePC × RaceState
  | ClosePC.checkFlag, s =>
    if s.isClosed then (ClosePC.done, s) else (ClosePC.adapterClose, s)
  | ClosePC.adapterClose, s =>
    (ClosePC.reportError, { s with adapterCloseCount := s.adapterCloseCount + 1 })
  | ClosePC.reportError, s =>
    if adapterFails then
      (ClosePC.writeFlag, { s with reportedErrors := s.reportedErrors + 1 })
    else (ClosePC.writeFlag, s)
  | ClosePC.writeFlag, s => (ClosePC.done, { s with isClosed := true })
  | ClosePC.done, s => (ClosePC.done, s)

/-- Run an explicit interleaving: the schedule names, step by step, the
invocation (by index) that executes its next atomic statement. -/
def runClose (adapterFails : Bool) :
    List Nat → List ClosePC → RaceState → List ClosePC × RaceState
  | [], pcs, s => (pcs, s)
  | t :: rest, pcs, s =>
    match pcs[t]? with
    | none => runClose adapterFails rest pcs s
    | some pc =>
      let step := closeStep adapterFails pc s
      runClose adapterFails rest (pcs.set t step.1) step.2

/-- An Adapter whose blocking close fails. -/
def sampleAdapterFailing : Adapter :=
  { inputChanId := 0, closeResult := some "close failed", deliveryErrors := [] }

/-- An Adapter whose blocking close succeeds. -/
def sampleAdapterClean : Adapter :=
  { inputChanId := 0, closeResult := none, deliveryErrors := [] }

/-- An open producer, logging disabled, over the failing Adapter. -/
def sampleOpenProducer : Producer :=
  { producer := sampleAdapterFailing, isClosed := false, isLoggingEnabled := false }

/-- An already-closed producer. -/
def sampleClosedProducer : Producer :=
  { producer := sampleAdapterClean, isClosed := true, isLoggingEnabled := false }

/-- An open producer with logging enabled, over the failing Adapter. -/
def sampleLoggingProducer : Producer :=
  { producer := sampleAdapterFailing, isClosed := false, isLoggingEnabled := true }

/-- Claim C1 (code evaluated at the failing input): two concurrent
Close() invocations on a non-closed Producer, interleaved so that both
pass the closed-flag check of line 149 before either flag write of
line 166 runs, drive the Adapter's close operation twice and report two
non-nil errors — the naive check-then-act does not give at-most-once
close execution. -/
theorem close_race_double_close :
  runClose true [0, 1, 0, 0, 0, 1, 1, 1]
      [ClosePC.checkFlag, ClosePC.checkFlag]
      { isClosed := false, adapterCloseCount := 0, reportedErrors := 0 } =
    ([ClosePC.done, ClosePC.done],
     { isClosed := true, adapterCloseCount := 2, reportedErrors := 2 }) := by
  decide

/-- Claim C2 (amended): on every Producer whose closed flag is true,
Input() returns no channel and a ResourceClosedError (spec taxonomy:
ResourceClosedAccess, code 4), and Close() is a no-op returning nil —
no channel and no spawned close goroutine, so the Adapter's close
operation is not invoked. -/
theorem closed_producer_gates (a : Adapter) (lg : Bool) :
  (Producer.Input { producer := a, isClosed := true, isLoggingEnabled := lg }) =
      (none, some (ResourceClosedError ["Producer already closed."])) ∧
  (ResourceClosedError ["Producer already closed."]).code = 4 ∧
  (Producer.Close { producer := a, isClosed := true, isLoggingEnabled := lg }) = none := by
  refine ⟨?_, rfl, ?_⟩ <;>
    simp [Producer.Input, Producer.Close, Producer.IsClosed]

/-- Claim C2 counterexample: on an already-closed Producer, Close()
returns nil — no channel value at all — not an immediately-closed or
empty channel. -/
theorem Close_on_closed_returns_nil :
  sampleClosedProducer.isClosed = true ∧
  (sampleClosedProducer.Close).isSome = false := by
  decide

/-- Claim C7: whatever the error handler, the config override and the
connection outcome, a nil or empty broker list makes New fail with a
BrokersNotSetError (code 1) and return no Producer. -/
theorem New_empty_brokers_fails
    (connect : List String → SaramaConfig → Except String Adapter)
    (eh : Option (ProducerError → Unit)) (sc : Option SaramaConfig) :
  New connect { errHandler := eh, kafkaBrokers := none, saramaConfig := sc } =
      Except.error (BrokersNotSetError ["No Kafka Brokers set."]) ∧
  New connect { errHandler := eh, kafkaBrokers := some [], saramaConfig := sc } =
      Except.error (BrokersNotSetError ["No Kafka Brokers set."]) ∧
  (BrokersNotSetError ["No Kafka Brokers set."]).code = 1 := by
  refine ⟨?_, ?_, rfl⟩ <;> simp [New, kafkaBrokersLen]

/-- Claim C8: the factory with the empty-string key builds a message
with no key set; with a non-empty key k it builds one whose key is
exactly k; CreateMessage is CreateKeyMessage with the empty sentinel
and topic and value round-trip unchanged. -/
theorem CreateKeyMessage_key_roundtrip (p : Producer)
    (topic value k : String) (h : k ≠ "") :
  p.CreateKeyMessage topic "" value =
      { topic := topic, key := none, value := value } ∧
  p.CreateKeyMessage topic k value =
      { topic := topic, key := some k, value := value } ∧
  p.CreateMessage topic value = p.CreateKeyMessage topic "" value := by
  refine ⟨?_, ?_, rfl⟩ <;> simp [Producer.CreateKeyMessage, h]

/-- Claim C8 witness: the key round-trip at topic "topic", key "k",
value "value". -/
theorem CreateKeyMessage_key_roundtrip_witness :
  sampleOpenProducer.CreateKeyMessage "topic" "" "value" =
      { topic := "topic", key := none, value := "value" } ∧
  sampleOpenProducer.CreateKeyMessage "topic" "k" "value" =
      { topic := "topic", key := some "k", value := "value" } ∧
  sampleOpenProducer.CreateMessage "topic" "value" =
      sampleOpenProducer.CreateKeyMessage "topic" "" "value" :=
  CreateKeyMessage_key_roundtrip sampleOpenProducer "topic" "value" "k" (by decide)

/-- Claim C9: with logging disabled and a nil error handler, draining
any delivery error reaches the unconditional errHandler(err) call of
line 138 with a nil function, which panics and kills the process; the
loop processes nothing further. -/
theorem handleErrors_nil_handler_panics (e : ProducerError)
    (es : List ProducerError) :
  routeError false none e = RouteOutcome.nilHandlerPanic e ∧
  handleErrorsLoop false none (e :: es) = [RouteOutcome.nilHandlerPanic e] :=
  ⟨rfl, rfl⟩

/-- In non-logging mode with a present handler the drain loop invokes
the handler once per delivery error, in order, and nothing else. -/
lemma handleErrorsLoop_handler_map (f : ProducerError → Unit) :
    ∀ es : List ProducerError,
      handleErrorsLoop false (some f) es = es.map RouteOutcome.handlerInvoked := by
  intro es
  induction es with
  | nil => rfl
  | cons e rest ih => simp [handleErrorsLoop, routeError, ih]

/-- Claim C6: a delivery error drained with logging enabled is logged
fatally — the process terminates, the handler call is never reached and
no later error is processed; with logging disabled and a handler
supplied, each drained error is handed to the handler exactly once, in
order, and the drain neither terminates the process nor panics (its
outcome list holds handler invocations only). -/
theorem handleErrors_dispatch (h : Option (ProducerError → Unit))
    (f : ProducerError → Unit) (e : ProducerError) (es : List ProducerError) :
  routeError true h e = RouteOutcome.fatalTerminated e ∧
  handleErrorsLoop true h (e :: es) = [RouteOutcome.fatalTerminated e] ∧
  routeError false (some f) e = RouteOutcome.handlerInvoked e ∧
  handleErrorsLoop false (some f) (e :: es) =
      (e :: es).map RouteOutcome.handlerInvoked := by
  refine ⟨rfl, ?_, rfl, handleErrorsLoop_handler_map f (e :: es)⟩
  simp [handleErrorsLoop, routeError]

/-- Claim C10: a supplied sarama-config override is passed to the
Adapter constructor unmodified; with no override the wrapper passes
exactly the defaults — acknowledgement from all replicas, delivery
errors surfaced, no compression — and New hands configFor's result to
the connection call verbatim. -/
theorem New_config_passthrough (eh : Option (ProducerError → Unit))
    (kb : Option (List String)) (c : SaramaConfig)
    (mk : List String → SaramaConfig → Adapter)
    (b : String) (bs : List String) (sc : Option SaramaConfig) :
  configFor { errHandler := eh, kafkaBrokers := kb, saramaConfig := some c } = c ∧
  configFor { errHandler := eh, kafkaBrokers := kb, saramaConfig := none } =
      { returnErrors := true
        requiredAcks := RequiredAcks.WaitForAll
        compression := CompressionCodec.CompressionNone } ∧
  New (fun xs cf => Except.ok (mk xs cf))
      { errHandler := eh, kafkaBrokers := some (b :: bs), saramaConfig := sc } =
    Except.ok
      { producer :=
          mk (b :: bs)
            (configFor { errHandler := eh, kafkaBrokers := some (b :: bs), saramaConfig := sc })
        isClosed := false
        isLoggingEnabled := false } := by
  refine ⟨rfl, rfl, ?_⟩
  simp [New, kafkaBrokersLen]

/-- A close-result receive that completes always yields a non-nil
error: only non-nil errors are ever sent and the channel is never
closed. -/
lemma receiveOnCloseChan_yields_sent (c : Option CloseChan) (o : Option String) :
    receiveOnCloseChan c = some o → ∃ e, o = some e := by
  intro hrecv
  cases c with
  | none => simp [receiveOnCloseChan] at hrecv
  | some ch =>
    cases hs : closeSends ch.events with
    | nil => simp [receiveOnCloseChan, hs] at hrecv
    | cons x xs =>
      simp [receiveOnCloseChan, hs] at hrecv
      exact ⟨x, hrecv.symm⟩

/-- Claim C3: after a termination signal the handler logs receipt
unconditionally (whatever the producer state and logging flag), never
panics on an absent error value, blocks without crashing when the close
result yields nothing (already-closed nil channel, clean close, or the
logging-mode fatal that dies before sending), and terminates the
process by fatally logging exactly the close error that the close
sequence reported. -/
theorem handleKeyInterrupt_spec (a : Adapter) (cl lg lg2 lg3 : Bool)
    (inputId : Nat) (e : String) (derrs : List ProducerError) :
  (Producer.handleKeyInterruptOnSignal
      { producer := a, isClosed := cl, isLoggingEnabled := lg }).receiptLogged = true ∧
  sigOutcomeIsPanic
      (Producer.handleKeyInterruptOnSignal
        { producer := a, isClosed := cl, isLoggingEnabled := lg }).outcome = false ∧
  (Producer.handleKeyInterruptOnSignal
      { producer := a, isClosed := true, isLoggingEnabled := lg2 }).outcome =
    SigOutcome.blockedForever ∧
  (Producer.handleKeyInterruptOnSignal
      { producer := ⟨inputId, none, derrs⟩, isClosed := false, isLoggingEnabled := lg3 }).outcome =
    SigOutcome.blockedForever ∧
  (Producer.handleKeyInterruptOnSignal
      { producer := ⟨inputId, some e, derrs⟩, isClosed := false, isLoggingEnabled := false }).outcome =
    SigOutcome.fatalLogged e ∧
  (Producer.handleKeyInterruptOnSignal
      { producer := ⟨inputId, some e, derrs⟩, isClosed := false, isLoggingEnabled := true }).outcome =
    SigOutcome.blockedForever := by
  refine ⟨rfl, ?_, ?_, ?_, rfl, rfl⟩
  · cases hrecv : receiveOnCloseChan
        (Producer.Close { producer := a, isClosed := cl, isLoggingEnabled := lg }) with
    | none => simp [Producer.handleKeyInterruptOnSignal, hrecv, sigOutcomeIsPanic]
    | some o =>
      obtain ⟨e2, rfl⟩ := receiveOnCloseChan_yields_sent _ o hrecv
      simp [Producer.handleKeyInterruptOnSignal, hrecv, sigOutcomeIsPanic]
  · simp [Producer.handleKeyInterruptOnSignal, Producer.Close, Producer.IsClosed,
      receiveOnCloseChan]
  · cases lg3 <;> rfl

/-- Claim C4 (amended): a close sequence started on a non-closed
Producer returns a capacity-1 result channel and runs the Adapter close
exactly once; at most one value is ever sent on the channel (so the
capacity-1 buffer means the close goroutine never blocks); a clean
close sends nothing; and with logging disabled a failing close sends
exactly the single underlying error. -/
theorem Close_result_channel_spec (inputId : Nat) (cr : Option String)
    (derrs : List ProducerError) (lg : Bool) (e : String) :
  (Producer.Close
      { producer := ⟨inputId, cr, derrs⟩, isClosed := false, isLoggingEnabled := lg }) =
    some { capacity := 1, events := closeGoroutine lg cr } ∧
  (closeSends (closeGoroutine lg cr)).length ≤ 1 ∧
  closeSends (closeGoroutine lg none) = [] ∧
  closeSends (closeGoroutine false (some e)) = [e] ∧
  adapterCloseCountOf (closeGoroutine lg cr) = 1 := by
  refine ⟨?_, ?_, ?_, rfl, ?_⟩
  · simp [Producer.Close, Producer.IsClosed]
  · cases cr <;> cases lg <;>
      simp [closeSends, closeGoroutine, closeGoroutineTail]
  · cases lg <;> rfl
  · cases cr <;> cases lg <;>
      simp [adapterCloseCountOf, closeGoroutine, closeGoroutineTail]

/-- Claim C4 counterexample: with logging enabled and a failing Adapter
close, the close sequence dies in log.Fatal before the send — the
failing close is never reported on the result channel. -/
theorem logging_failing_close_unreported :
  sampleLoggingProducer.producer.closeResult = some "close failed" ∧
  sampleLoggingProducer.Close =
    some { capacity := 1
           events := [CloseEvent.adapterClose (some "close failed"),
                      CloseEvent.fatalLog "close failed"] } ∧
  closeSends [CloseEvent.adapterClose (some "close failed"),
              CloseEvent.fatalLog "close failed"] = [] ∧
  traceHasFatal [CloseEvent.adapterClose (some "close failed"),
                 CloseEvent.fatalLog "close failed"] = true := by
  decide

/-- Claim C5 (amended): the close sequence begins with the Adapter
close attempt and — whenever it does not die in the logging-mode
log.Fatal, that is when logging is disabled or the Adapter close
succeeded — writes the closed flag exactly once, as its final step,
after the Adapter close attempt completed. -/
theorem Close_marks_closed_last (inputId : Nat) (cr : Option String)
    (derrs : List ProducerError) (lg : Bool) (e : String) :
  (Producer.Close
      { producer := ⟨inputId, cr, derrs⟩, isClosed := false, isLoggingEnabled := lg }) =
    some { capacity := 1, events := closeGoroutine lg cr } ∧
  (closeGoroutine lg none).head? = some (CloseEvent.adapterClose none) ∧
  (closeGoroutine false (some e)).head? = some (CloseEvent.adapterClose (some e)) ∧
  (closeGoroutine lg none).getLast? = some CloseEvent.setClosedTrue ∧
  (closeGoroutine false (some e)).getLast? = some CloseEvent.setClosedTrue ∧
  tracePutsClosedTrue (closeGoroutine lg none).dropLast = false ∧
  tracePutsClosedTrue (closeGoroutine false (some e)).dropLast = false := by
  refine ⟨?_, ?_, rfl, ?_, ?_, ?_, ?_⟩
  · simp [Producer.Close, Producer.IsClosed]
  · cases lg <;> rfl
  · cases lg <;> rfl
  · rfl
  · cases lg <;> rfl
  · rfl

/-- Claim C5 counterexample: with logging enabled and a failing Adapter
close, the close sequence terminates the process in log.Fatal and never
writes the closed flag. -/
theorem logging_failing_close_skips_flag :
  sampleLoggingProducer.Close =
    some { capacity := 1
           events := [CloseEvent.adapterClose (some "close failed"),
                      CloseEvent.fatalLog "close failed"] } ∧
  tracePutsClosedTrue [CloseEvent.adapterClose (some "close failed"),
                       CloseEvent.fatalLog "close failed"] = false := by
  decide

end GoKafkaProxy
